import Mathlib

/-!
Shallow embedding of `src/simulator/sir.py` (class `Simulation`): a stochastic
SIR(+Dead) epidemic on a 2D grid.  Cell statuses are the integer codes stored
in the NumPy state array.  Random draws of the global generator `random()`
(uniform in `[0,1)`) are modelled by an explicit stream `r : ℕ → ℚ` together
with a position counter threaded through the update loop; `randint` draws of
`infect_randomly` are modelled by a stream of coordinate pairs.
-/

namespace SIR

/-- Status code `Simulation.SUSCEPTIBLE = 0`. -/
def SUSCEPTIBLE : ℕ := 0

/-- Status code `Simulation.INFECTED = 1`. -/
def INFECTED : ℕ := 1

/-- Status code `Simulation.RECOVERED = 2`. -/
def RECOVERED : ℕ := 2

/-- Status code `Simulation.DEAD = 3`. -/
def DEAD : ℕ := 3

/-- The mutable fields of the Python `Simulation` object.  `state i j` is the
integer status code of the cell at grid coordinate `(i, j)`; only the values
at `i < width`, `j < height` correspond to entries of the NumPy array. -/
structure Simulation where
  day : ℕ
  width : ℕ
  height : ℕ
  recovery_probability : ℚ
  infection_probability : ℚ
  death_probability : ℚ
  state : ℕ → ℕ → ℕ

/-- The successful branch of `Simulation.__init__`: day 0, given dimensions
and probabilities, every cell `SUSCEPTIBLE` (`np.zeros` then broadcast). -/
def mkSimulation (width height : ℕ) (recovery infection death : ℚ) : Simulation :=
  { day := 0
    width := width
    height := height
    recovery_probability := recovery
    infection_probability := infection
    death_probability := death
    state := fun _ _ => SUSCEPTIBLE }

/-- `Simulation.__init__(width, height, recovery, infection, death)`.
The constructor performs no validation of its own; the call
`np.zeros((width, height), int)` raises `ValueError` when a dimension is
negative (NumPy behaviour) and silently returns an empty array when a
dimension is zero. -/
def simulation_init (width height : Int) (recovery infection death : ℚ) :
    Except String Simulation :=
  if width < 0 ∨ height < 0 then
    Except.error "ValueError: negative dimensions are not allowed"
  else
    Except.ok (mkSimulation width.toNat height.toNat recovery infection death)

/-- `Simulation.num_infected_around(state, i, j)`: nested loop over
`range(max(i-1,0), min(i+2,width))` and `range(max(j-1,0), min(j+2,height))`,
counting neighbours (excluding `(i,j)` itself) whose status is `INFECTED`. -/
def Simulation.num_infected_around (sim : Simulation) (state : ℕ → ℕ → ℕ)
    (i j : ℕ) : ℕ :=
  let ivals := List.range' (max (i - 1) 0) (min (i + 2) sim.width - max (i - 1) 0)
  let jvals := List.range' (max (j - 1) 0) (min (j + 2) sim.height - max (j - 1) 0)
  ivals.foldl
    (fun number ip =>
      jvals.foldl
        (fun number jp =>
          if (ip, jp) ≠ (i, j) ∧ state ip jp = INFECTED then number + 1 else number)
        number)
    0

/-- `Simulation.get_new_status(state, i, j)`: the per-cell transition rule.
`r` is the stream of uniform draws of the global generator and `pos` the
index of the next unconsumed draw; the result pairs the new status code with
the stream position after the call (infected cells consume one draw when the
recovery test succeeds and two otherwise, susceptible cells consume one,
recovered and dead cells consume none). -/
def Simulation.get_new_status (sim : Simulation) (state : ℕ → ℕ → ℕ) (i j : ℕ)
    (r : ℕ → ℚ) (pos : ℕ) : ℕ × ℕ :=
  let status := state i j
  if status = INFECTED then
    if sim.recovery_probability > r pos then (RECOVERED, pos + 1)
    else if sim.death_probability > r (pos + 1) then (DEAD, pos + 2)
    else (status, pos + 2)
  else if status = SUSCEPTIBLE then
    if (sim.num_infected_around state i j : ℚ) * sim.infection_probability > r pos then
      (INFECTED, pos + 1)
    else (status, pos + 1)
  else (status, pos)

/-- The cell coordinates visited by the nested `for i ... for j ...` loop of
`Simulation.update`, in loop order. -/
def gridCells (width height : ℕ) : List (ℕ × ℕ) :=
  (List.range width).foldr
    (fun i acc => ((List.range height).map fun j => (i, j)) ++ acc) []

/-- One iteration of the loop body of `Simulation.update`: assign
`new_state[i, j] = self.get_new_status(old_state, i, j)` in the accumulated
new grid and advance the draw-stream position. -/
def updStep (sim : Simulation) (old_state : ℕ → ℕ → ℕ) (r : ℕ → ℚ)
    (acc : (ℕ → ℕ → ℕ) × ℕ) (c : ℕ × ℕ) : (ℕ → ℕ → ℕ) × ℕ :=
  let res := sim.get_new_status old_state c.1 c.2 r acc.2
  (fun a b => if (a, b) = c then res.1 else acc.1 a b, res.2)

/-- `Simulation.update()`: computes every cell's new status from the
pre-update snapshot `old_state` (the new statuses accumulate in a copy,
starting from `old_state`, exactly as `new_state = old_state.copy()` does),
threads the draw-stream position through the cells in loop order, replaces
the grid, and increments the day counter. -/
def Simulation.update (sim : Simulation) (r : ℕ → ℚ) : Simulation :=
  let old_state := sim.state
  let result :=
    (gridCells sim.width sim.height).foldl (updStep sim old_state r) (old_state, 0)
  { sim with state := result.1, day := sim.day + 1 }

/-- One iteration of the loop body of `Simulation.infect_randomly`:
`self.state[i, j] = self.INFECTED` at the `n`-th drawn coordinate pair. -/
def infectStep (draws : ℕ → ℕ × ℕ) (s : Simulation) (n : ℕ) : Simulation :=
  { s with state := fun a b => if (a, b) = draws n then INFECTED else s.state a b }

/-- `Simulation.infect_randomly(num)`: for `n in range(num)`, set the cell at
the `n`-th randomly drawn coordinate pair (`randint(width)`, `randint(height)`)
to `INFECTED`.  `draws n` is the `n`-th pair of `randint` results. -/
def Simulation.infect_randomly (sim : Simulation) (num : ℕ)
    (draws : ℕ → ℕ × ℕ) : Simulation :=
  (List.range num).foldl (infectStep draws) sim

/-- The number of grid cells holding status code `code`
(`np.count_nonzero(simgrid == statusnum)`). -/
def Simulation.count_status (sim : Simulation) (code : ℕ) : ℕ :=
  (((Finset.range sim.width) ×ˢ (Finset.range sim.height)).filter
    (fun p => sim.state p.1 p.2 = code)).card

/-- `Simulation.get_percentage_status()`: for each status code,
`100 * count / total` where `total = width * height`.  The method only reads
the state; it is modelled as a pure function. -/
def Simulation.get_percentage_status (sim : Simulation) (code : ℕ) : ℚ :=
  100 * (sim.count_status code : ℚ) / ((sim.width : ℚ) * (sim.height : ℚ))

/-- `k` successive calls of `update()`; `rs n` is the draw stream consumed by
the `n`-th call. -/
def Simulation.updates (sim : Simulation) (rs : ℕ → ℕ → ℚ) : ℕ → Simulation
  | 0 => sim
  | k + 1 => (sim.updates rs k).update (rs k)

/-- Engine states reachable through the public interface: a successful
construction followed by any sequence of `update` and `infect_randomly`
calls (the coordinates of `infect_randomly` are `randint` results, hence
within the grid). -/
inductive Reachable : Simulation → Prop where
  | init : ∀ (w h : Int) (rec inf dth : ℚ) (s : Simulation),
      simulation_init w h rec inf dth = Except.ok s → Reachable s
  | update : ∀ (s : Simulation) (r : ℕ → ℚ), Reachable s → Reachable (s.update r)
  | infect : ∀ (s : Simulation) (num : ℕ) (draws : ℕ → ℕ × ℕ), Reachable s →
      (∀ n, n < num → (draws n).1 < s.width ∧ (draws n).2 < s.height) →
      Reachable (s.infect_randomly num draws)

/-- The spec's neighbour count, written from the spec's words for comparison
with `Simulation.num_infected_around`: the number of `Infected` cells in
`{(i', j') : i' ∈ [max(i-1,0), min(i+1,width-1)], j' ∈ [max(j-1,0),
min(j+1,height-1)], (i',j') ≠ (i,j)}` — the Moore neighbourhood clipped at
the grid boundary, the cell itself excluded. -/
def specInfectedAround (width height : ℕ) (state : ℕ → ℕ → ℕ) (i j : ℕ) : ℕ :=
  (((Finset.Icc (max (i - 1) 0) (min (i + 1) (width - 1))) ×ˢ
      (Finset.Icc (max (j - 1) 0) (min (j + 1) (height - 1)))).filter
    (fun p => p ≠ (i, j) ∧ state p.1 p.2 = INFECTED)).card

/-- Every in-grid cell holds one of the four status codes. -/
def statusValid (sim : Simulation) : Prop :=
  ∀ i j, i < sim.width → j < sim.height → sim.state i j < 4

/-- The 1×3 grid `[Infected, Susceptible, Susceptible]` with
`recovery_probability = 1` and `infection_probability = 1` of the spec's
simultaneous-snapshot scenario. -/
def sim13 : Simulation :=
  { mkSimulation 1 3 1 1 (1 / 200) with
    state := fun a b => if (a, b) = ((0 : ℕ), (0 : ℕ)) then INFECTED else SUSCEPTIBLE }

/-- The 2×2 grid with only cell `(0,0)` infected, from the spec's
edge/corner neighbour-count scenario. -/
def sim22 : Simulation :=
  { mkSimulation 2 2 (1 / 10) (1 / 10) (1 / 200) with
    state := fun a b => if (a, b) = ((0 : ℕ), (0 : ℕ)) then INFECTED else SUSCEPTIBLE }

/-- A 2×2 grid whose cell `(0,0)` is dead and cell `(0,1)` recovered; the
two remaining susceptible cells have no infected neighbour. -/
def simTerm : Simulation :=
  { mkSimulation 2 2 (1 / 10) (1 / 10) (1 / 200) with
    state := fun a b =>
      if (a, b) = ((0 : ℕ), (0 : ℕ)) then DEAD
      else if (a, b) = ((0 : ℕ), (1 : ℕ)) then RECOVERED
      else SUSCEPTIBLE }

/-! ### Helper lemmas about `infect_randomly` -/

lemma infect_foldl_day (draws : ℕ → ℕ × ℕ) :
    ∀ (l : List ℕ) (s : Simulation), (l.foldl (infectStep draws) s).day = s.day := by
  intro l
  induction l with
  | nil => intro s; rfl
  | cons c t ih => intro s; rw [List.foldl_cons]; exact ih (infectStep draws s c)

lemma infect_foldl_width (draws : ℕ → ℕ × ℕ) :
    ∀ (l : List ℕ) (s : Simulation), (l.foldl (infectStep draws) s).width = s.width := by
  intro l
  induction l with
  | nil => intro s; rfl
  | cons c t ih => intro s; rw [List.foldl_cons]; exact ih (infectStep draws s c)

lemma infect_foldl_height (draws : ℕ → ℕ × ℕ) :
    ∀ (l : List ℕ) (s : Simulation), (l.foldl (infectStep draws) s).height = s.height := by
  intro l
  induction l with
  | nil => intro s; rfl
  | cons c t ih => intro s; rw [List.foldl_cons]; exact ih (infectStep draws s c)

lemma infect_foldl_state (draws : ℕ → ℕ × ℕ) :
    ∀ (l : List ℕ) (s : Simulation) (a b : ℕ),
      (l.foldl (infectStep draws) s).state a b
        = if ∃ n ∈ l, draws n = (a, b) then INFECTED else s.state a b := by
  intro l
  induction l with
  | nil => intro s a b; simp
  | cons c t ih =>
      intro s a b
      rw [List.foldl_cons, ih]
      have hiff : (∃ n ∈ c :: t, draws n = (a, b))
          ↔ (draws c = (a, b) ∨ ∃ n ∈ t, draws n = (a, b)) := by
        simp [List.mem_cons, or_and_right, exists_or, exists_eq_left]
      by_cases hc : draws c = (a, b)
      · by_cases ht : ∃ n ∈ t, draws n = (a, b)
        · rw [if_pos ht, if_pos (hiff.2 (Or.inl hc))]
        · rw [if_neg ht, if_pos (hiff.2 (Or.inl hc))]
          show (if (a, b) = draws c then INFECTED else s.state a b) = INFECTED
          rw [if_pos hc.symm]
      · by_cases ht : ∃ n ∈ t, draws n = (a, b)
        · rw [if_pos ht, if_pos (hiff.2 (Or.inr ht))]
        · rw [if_neg ht, if_neg (fun hmem => (hiff.1 hmem).elim hc ht)]
          show (if (a, b) = draws c then INFECTED else s.state a b) = s.state a b
          rw [if_neg (fun he => hc he.symm)]

lemma infect_randomly_state (sim : Simulation) (num : ℕ) (draws : ℕ → ℕ × ℕ)
    (a b : ℕ) :
    (sim.infect_randomly num draws).state a b
      = if ∃ n ∈ List.range num, draws n = (a, b) then INFECTED else sim.state a b := by
  rw [Simulation.infect_randomly, infect_foldl_state]

/-! ### Helper lemmas about `update` -/

lemma updFoldl_not_mem (sim : Simulation) (ost : ℕ → ℕ → ℕ) (r : ℕ → ℚ) :
    ∀ (cells : List (ℕ × ℕ)) (acc : (ℕ → ℕ → ℕ) × ℕ) (a b : ℕ),
      (a, b) ∉ cells → (cells.foldl (updStep sim ost r) acc).1 a b = acc.1 a b := by
  intro cells
  induction cells with
  | nil => intro acc a b _; rfl
  | cons c t ih =>
      intro acc a b h
      rw [List.foldl_cons, ih _ a b (fun hm => h (List.mem_cons.2 (Or.inr hm)))]
      have hne : (a, b) ≠ c := fun he => h (he ▸ List.mem_cons_self c t)
      simp [updStep, hne]

lemma updFoldl_mem (sim : Simulation) (ost : ℕ → ℕ → ℕ) (r : ℕ → ℚ) :
    ∀ (cells : List (ℕ × ℕ)) (acc : (ℕ → ℕ → ℕ) × ℕ) (a b : ℕ),
      (a, b) ∈ cells →
        ∃ p, (cells.foldl (updStep sim ost r) acc).1 a b
              = (sim.get_new_status ost a b r p).1 := by
  intro cells
  induction cells with
  | nil => intro acc a b h; exact absurd h (List.not_mem_nil _)
  | cons c t ih =>
      intro acc a b h
      rw [List.foldl_cons]
      by_cases ht : (a, b) ∈ t
      · exact ih _ a b ht
      · have hc : (a, b) = c := (List.mem_cons.1 h).resolve_right ht
        subst hc
        rw [updFoldl_not_mem sim ost r t _ a b ht]
        exact ⟨acc.2, by simp [updStep]⟩

lemma mem_gridCells (width height : ℕ) (i j : ℕ) :
    (i, j) ∈ gridCells width height ↔ i < width ∧ j < height := by
  unfold gridCells
  have key : ∀ l : List ℕ,
      ((i, j) ∈ l.foldr
          (fun i acc => ((List.range height).map fun j => (i, j)) ++ acc) [])
        ↔ i ∈ l ∧ j < height := by
    intro l
    induction l with
    | nil => simp
    | cons c t ih =>
        simp only [List.foldr_cons, List.mem_append, List.mem_map, ih,
          List.mem_cons, List.mem_range, Prod.mk.injEq]
        constructor
        · rintro (⟨j', hj', hc, hj⟩ | ⟨hi, hj⟩)
          · exact ⟨Or.inl hc.symm, hj ▸ hj'⟩
          · exact ⟨Or.inr hi, hj⟩
        · rintro ⟨hi | hi, hj⟩
          · exact Or.inl ⟨j, hj, hi.symm, rfl⟩
          · exact Or.inr ⟨hi, hj⟩
  simpa [List.mem_range] using key (List.range width)

lemma update_state_spec (sim : Simulation) (r : ℕ → ℚ) (i j : ℕ)
    (hi : i < sim.width) (hj : j < sim.height) :
    ∃ p, (sim.update r).state i j = (sim.get_new_status sim.state i j r p).1 := by
  have h := updFoldl_mem sim sim.state r (gridCells sim.width sim.height)
    (sim.state, 0) i j ((mem_gridCells sim.width sim.height i j).2 ⟨hi, hj⟩)
  simpa [Simulation.update] using h

lemma update_state_not_mem (sim : Simulation) (r : ℕ → ℚ) (i j : ℕ)
    (h : ¬(i < sim.width ∧ j < sim.height)) :
    (sim.update r).state i j = sim.state i j := by
  have hnm : (i, j) ∉ gridCells sim.width sim.height := fun hm =>
    h ((mem_gridCells sim.width sim.height i j).1 hm)
  simpa [Simulation.update] using
    updFoldl_not_mem sim sim.state r (gridCells sim.width sim.height)
      (sim.state, 0) i j hnm

/-! ### Helper lemmas about `get_new_status` -/

lemma gns_terminal (sim : Simulation) (state : ℕ → ℕ → ℕ) (i j : ℕ)
    (r : ℕ → ℚ) (pos : ℕ) (h : state i j = RECOVERED ∨ state i j = DEAD) :
    sim.get_new_status state i j r pos = (state i j, pos) := by
  rcases h with h | h <;>
    simp [Simulation.get_new_status, h, RECOVERED, DEAD, INFECTED, SUSCEPTIBLE]

lemma gns_lt_four (sim : Simulation) (state : ℕ → ℕ → ℕ) (i j : ℕ)
    (r : ℕ → ℚ) (pos : ℕ) (h : state i j < 4) :
    (sim.get_new_status state i j r pos).1 < 4 := by
  unfold Simulation.get_new_status
  split_ifs <;> simp only [apply_ite (Prod.fst)] <;> split_ifs <;>
    simp_all [RECOVERED, DEAD, INFECTED, SUSCEPTIBLE]

/-! ### Counting lemmas: the neighbour-count loops as finite sums -/

lemma foldl_if_count (Q : ℕ → Prop) [DecidablePred Q] :
    ∀ (l : List ℕ) (n : ℕ),
      l.foldl (fun m x => if Q x then m + 1 else m) n
        = n + ((l.map fun x => if Q x then (1 : ℕ) else 0).sum) := by
  intro l
  induction l with
  | nil => intro n; simp
  | cons c t ih =>
      intro n
      rw [List.foldl_cons, ih]
      simp only [List.map_cons, List.sum_cons]
      split_ifs <;> omega

lemma foldl_if_count_nested (Q : ℕ → ℕ → Prop) [∀ a b, Decidable (Q a b)]
    (l2 : List ℕ) :
    ∀ (l1 : List ℕ) (n : ℕ),
      l1.foldl
          (fun number ip =>
            l2.foldl (fun number jp => if Q ip jp then number + 1 else number) number)
          n
        = n + (l1.map fun ip =>
            ((l2.map fun jp => if Q ip jp then (1 : ℕ) else 0).sum)).sum := by
  intro l1
  induction l1 with
  | nil => intro n; simp
  | cons c t ih =>
      intro n
      rw [List.foldl_cons, ih, foldl_if_count (Q c) l2 n]
      simp only [List.map_cons, List.sum_cons]
      ring

lemma sum_map_range' (g : ℕ → ℕ) :
    ∀ (n a : ℕ), ((List.range' a n).map g).sum = ∑ x ∈ Finset.Ico a (a + n), g x := by
  intro n
  induction n with
  | zero => intro a; simp
  | succ k ih =>
      intro a
      rw [List.range'_succ, List.map_cons, List.sum_cons, ih (a + 1),
        Finset.sum_eq_sum_Ico_succ_bot (by omega : a < a + (k + 1))]
      have e : a + 1 + k = a + (k + 1) := by omega
      rw [e]

lemma num_infected_around_eq_spec (sim : Simulation) (state : ℕ → ℕ → ℕ)
    (i j : ℕ) (hi : i < sim.width) (hj : j < sim.height) :
    sim.num_infected_around state i j
      = specInfectedAround sim.width sim.height state i j := by
  have hw : 1 ≤ sim.width := Nat.one_le_iff_ne_zero.2 (by omega)
  have hh : 1 ≤ sim.height := Nat.one_le_iff_ne_zero.2 (by omega)
  rw [Simulation.num_infected_around]
  rw [foldl_if_count_nested (fun ip jp => (ip, jp) ≠ (i, j) ∧ state ip jp = INFECTED)]
  rw [specInfectedAround, Finset.card_filter, Finset.sum_product]
  have ei : Finset.Icc (max (i - 1) 0) (min (i + 1) (sim.width - 1))
      = Finset.Ico (max (i - 1) 0)
          (max (i - 1) 0 + (min (i + 2) sim.width - max (i - 1) 0)) := by
    rw [show max (i - 1) 0 + (min (i + 2) sim.width - max (i - 1) 0)
        = min (i + 1) (sim.width - 1) + 1 by omega]
    exact (Nat.Ico_succ_right _ _).symm
  have ej : Finset.Icc (max (j - 1) 0) (min (j + 1) (sim.height - 1))
      = Finset.Ico (max (j - 1) 0)
          (max (j - 1) 0 + (min (j + 2) sim.height - max (j - 1) 0)) := by
    rw [show max (j - 1) 0 + (min (j + 2) sim.height - max (j - 1) 0)
        = min (j + 1) (sim.height - 1) + 1 by omega]
    exact (Nat.Ico_succ_right _ _).symm
  rw [ei, ej, sum_map_range']
  rw [Finset.sum_congr rfl fun ip _ => sum_map_range' _ _ _]
  rw [Nat.zero_add]

/-! ### The status-validity invariant of reachable states -/

lemma statusValid_mk (w h : ℕ) (rec inf dth : ℚ) :
    statusValid (mkSimulation w h rec inf dth) := by
  intro i j _ _
  simp [mkSimulation, SUSCEPTIBLE]

lemma statusValid_update (sim : Simulation) (r : ℕ → ℚ) (h : statusValid sim) :
    statusValid (sim.update r) := by
  intro i j hi hj
  have hi' : i < sim.width := hi
  have hj' : j < sim.height := hj
  obtain ⟨p, hp⟩ := update_state_spec sim r i j hi' hj'
  rw [hp]
  exact gns_lt_four sim sim.state i j r p (h i j hi' hj')

lemma statusValid_infect (sim : Simulation) (num : ℕ) (draws : ℕ → ℕ × ℕ)
    (h : statusValid sim) : statusValid (sim.infect_randomly num draws) := by
  intro i j hi hj
  have hw : (sim.infect_randomly num draws).width = sim.width :=
    infect_foldl_width draws (List.range num) sim
  have hh : (sim.infect_randomly num draws).height = sim.height :=
    infect_foldl_height draws (List.range num) sim
  rw [infect_randomly_state]
  split_ifs with hsel
  · simp [INFECTED]
  · exact h i j (hw ▸ hi) (hh ▸ hj)

lemma reachable_statusValid (sim : Simulation) (h : Reachable sim) :
    statusValid sim := by
  induction h with
  | init w h rec inf dth s hs =>
      rw [simulation_init] at hs
      split at hs
      · exact absurd hs (by simp)
      · cases hs
        exact statusValid_mk _ _ _ _ _
  | update s r _ ih => exact statusValid_update s r ih
  | infect s num draws _ hdr ih => exact statusValid_infect s num draws ih

/-! ### The four status counts partition the grid -/

lemma count_status_partition (sim : Simulation) (h : statusValid sim) :
    sim.count_status SUSCEPTIBLE + sim.count_status INFECTED
      + sim.count_status RECOVERED + sim.count_status DEAD
      = sim.width * sim.height := by
  unfold Simulation.count_status
  rw [Finset.card_filter, Finset.card_filter, Finset.card_filter, Finset.card_filter,
    ← Finset.sum_add_distrib, ← Finset.sum_add_distrib, ← Finset.sum_add_distrib]
  have key : ∀ p ∈ Finset.range sim.width ×ˢ Finset.range sim.height,
      ((if sim.state p.1 p.2 = SUSCEPTIBLE then (1 : ℕ) else 0)
        + (if sim.state p.1 p.2 = INFECTED then 1 else 0)
        + (if sim.state p.1 p.2 = RECOVERED then 1 else 0)
        + (if sim.state p.1 p.2 = DEAD then 1 else 0)) = 1 := by
    intro p hp
    obtain ⟨h1, h2⟩ := Finset.mem_product.1 hp
    have hv : sim.state p.1 p.2 < 4 :=
      h p.1 p.2 (Finset.mem_range.1 h1) (Finset.mem_range.1 h2)
    set v := sim.state p.1 p.2 with hv'
    interval_cases v <;> simp [SUSCEPTIBLE, INFECTED, RECOVERED, DEAD]
  rw [Finset.sum_congr rfl key]
  simp [Finset.card_product]

/-! ### The claims -/

/-- C2: a cell whose status is `Dead` or `Recovered` before `update()` has
the same status after the call, for every draw stream — the terminal
statuses are absorbing. -/
theorem terminal_statuses_absorbing (sim : Simulation) (r : ℕ → ℚ) (i j : ℕ)
    (hi : i < sim.width) (hj : j < sim.height)
    (h : sim.state i j = RECOVERED ∨ sim.state i j = DEAD) :
    (sim.update r).state i j = sim.state i j := by
  obtain ⟨p, hp⟩ := update_state_spec sim r i j hi hj
  rw [hp, gns_terminal sim sim.state i j r p h]

/-- Witness for C2: on the concrete grid `simTerm`, the dead cell `(0,0)`
keeps its status through an update. -/
theorem terminal_statuses_absorbing_witness :
    (0 < simTerm.width ∧ 0 < simTerm.height ∧ simTerm.state 0 0 = DEAD) ∧
    (simTerm.update fun _ => (1 : ℚ) / 2).state 0 0 = simTerm.state 0 0 :=
  ⟨by refine ⟨by decide, by decide, by decide⟩,
    terminal_statuses_absorbing simTerm (fun _ => (1 : ℚ) / 2) 0 0 (by decide)
      (by decide) (Or.inr (by decide))⟩

/-- C3: an `Infected` cell recovers exactly when its first draw `r1`
satisfies `r1 < recovery_probability`; otherwise a second draw `r2` is made
and the cell dies exactly when `r2 < death_probability`, else it stays
`Infected`.  Recovery is checked before death, so a recovering cell cannot
also die on the same day. -/
theorem infected_transition_rule (sim : Simulation) (state : ℕ → ℕ → ℕ)
    (i j : ℕ) (r : ℕ → ℚ) (pos : ℕ) (h : state i j = INFECTED) :
    sim.get_new_status state i j r pos
      = if r pos < sim.recovery_probability then (RECOVERED, pos + 1)
        else if r (pos + 1) < sim.death_probability then (DEAD, pos + 2)
        else (INFECTED, pos + 2) := by
  simp [Simulation.get_new_status, h, gt_iff_lt]

/-- Witness for C3: the infected cell of `sim13` recovers when the first
draw is `1/2 < 1`, consuming one draw. -/
theorem infected_transition_rule_witness :
    sim13.state 0 0 = INFECTED ∧
    sim13.get_new_status sim13.state 0 0 (fun _ => (1 : ℚ) / 2) 0 = (RECOVERED, 1) := by
  refine ⟨by decide, ?_⟩
  rw [infected_transition_rule sim13 sim13.state 0 0 (fun _ => (1 : ℚ) / 2) 0 (by decide)]
  norm_num [sim13, mkSimulation]

/-- C4: the neighbour count of `num_infected_around` equals the number of
infected cells of the snapshot in the spec's clipped Moore neighbourhood
(no wraparound, cell itself excluded); on the 2×2 grid with only `(0,0)`
infected, each other cell has exactly one infected neighbour. -/
theorem neighbor_count_moore_clipped :
    (∀ (sim : Simulation) (state : ℕ → ℕ → ℕ) (i j : ℕ),
        i < sim.width → j < sim.height →
        sim.num_infected_around state i j
          = specInfectedAround sim.width sim.height state i j) ∧
    (sim22.num_infected_around sim22.state 0 1 = 1 ∧
      sim22.num_infected_around sim22.state 1 0 = 1 ∧
      sim22.num_infected_around sim22.state 1 1 = 1) := by
  refine ⟨fun sim state i j hi hj =>
    num_infected_around_eq_spec sim state i j hi hj, by decide, by decide, by decide⟩

/-- Witness for C4: the general neighbour-count identity instantiated on the
2×2 grid at cell `(0,1)`. -/
theorem neighbor_count_moore_clipped_witness :
    (0 < sim22.width ∧ 1 < sim22.height) ∧
    sim22.num_infected_around sim22.state 0 1
      = specInfectedAround sim22.width sim22.height sim22.state 0 1 :=
  ⟨⟨by decide, by decide⟩,
    neighbor_count_moore_clipped.1 sim22 sim22.state 0 1 (by decide) (by decide)⟩

/-- C5: a `Susceptible` cell with zero infected neighbours in the pre-update
snapshot stays `Susceptible` after `update()` for every draw stream of
values `≥ 0`, including draws of exactly `0`. -/
theorem susceptible_zero_neighbors_stays (sim : Simulation) (r : ℕ → ℚ)
    (i j : ℕ) (hi : i < sim.width) (hj : j < sim.height)
    (hs : sim.state i j = SUSCEPTIBLE)
    (hn : sim.num_infected_around sim.state i j = 0)
    (hr : ∀ k, 0 ≤ r k) :
    (sim.update r).state i j = SUSCEPTIBLE := by
  obtain ⟨p, hp⟩ := update_state_spec sim r i j hi hj
  rw [hp]
  have hno : ¬((sim.num_infected_around sim.state i j : ℚ)
      * sim.infection_probability > r p) := by
    rw [hn]
    push_cast
    simpa using not_lt.2 (hr p)
  simp [Simulation.get_new_status, hs, hno, SUSCEPTIBLE, INFECTED]

/-- Witness for C5: on `simTerm`, the susceptible cell `(1,1)` has no
infected neighbour and stays susceptible through an update whose draws are
all exactly `0`. -/
theorem susceptible_zero_neighbors_stays_witness :
    (1 < simTerm.width ∧ 1 < simTerm.height ∧ simTerm.state 1 1 = SUSCEPTIBLE ∧
      simTerm.num_infected_around simTerm.state 1 1 = 0) ∧
    (simTerm.update fun _ => (0 : ℚ)).state 1 1 = SUSCEPTIBLE :=
  ⟨⟨by decide, by decide, by decide, by decide⟩,
    susceptible_zero_neighbors_stays simTerm (fun _ => (0 : ℚ)) 1 1 (by decide)
      (by decide) (by decide) (by decide) (fun _ => le_refl 0)⟩

/-- C6: the day counter starts at 0 at construction, every `update()` call
increments it by exactly 1, `infect_randomly` (the only other mutating
operation) leaves it unchanged, and after `k` updates on a fresh engine it
equals `k`, for every draw sequence. -/
theorem day_counter_monotone :
    (∀ (w h : ℕ) (rec inf dth : ℚ), (mkSimulation w h rec inf dth).day = 0) ∧
    (∀ (sim : Simulation) (r : ℕ → ℚ), (sim.update r).day = sim.day + 1) ∧
    (∀ (sim : Simulation) (num : ℕ) (draws : ℕ → ℕ × ℕ),
        (sim.infect_randomly num draws).day = sim.day) ∧
    (∀ (w h : ℕ) (rec inf dth : ℚ) (rs : ℕ → ℕ → ℚ) (k : ℕ),
        ((mkSimulation w h rec inf dth).updates rs k).day = k) := by
  have hupd : ∀ (s : Simulation) (r : ℕ → ℚ), (s.update r).day = s.day + 1 :=
    fun _ _ => rfl
  refine ⟨fun _ _ _ _ _ => rfl, hupd,
    fun sim num draws => infect_foldl_day draws (List.range num) sim,
    fun w h rec inf dth rs k => ?_⟩
  induction k with
  | zero => rfl
  | succ n ih => rw [Simulation.updates, hupd, ih]

/-- C7: on every reachable engine state with a nonempty grid, the four
status percentages returned by `get_percentage_status` sum to exactly 100
in exact rational arithmetic. -/
theorem percentage_status_sums_to_100 (sim : Simulation) (hr : Reachable sim)
    (hw : 0 < sim.width) (hh : 0 < sim.height) :
    sim.get_percentage_status SUSCEPTIBLE + sim.get_percentage_status INFECTED
      + sim.get_percentage_status RECOVERED + sim.get_percentage_status DEAD
      = 100 := by
  have hval := reachable_statusValid sim hr
  have hc := count_status_partition sim hval
  have hkey : (sim.count_status SUSCEPTIBLE : ℚ) + sim.count_status INFECTED
      + sim.count_status RECOVERED + sim.count_status DEAD
      = (sim.width : ℚ) * sim.height := by
    exact_mod_cast hc
  have hT : ((sim.width : ℚ) * (sim.height : ℚ)) ≠ 0 :=
    mul_ne_zero (Nat.cast_ne_zero.2 hw.ne') (Nat.cast_ne_zero.2 hh.ne')
  unfold Simulation.get_percentage_status
  field_simp
  linarith [hkey]

/-- Witness for C7: the freshly constructed 2×2 engine is reachable and its
percentages sum to 100. -/
theorem percentage_status_sums_to_100_witness :
    (Reachable (mkSimulation 2 2 (1 / 10) (1 / 10) (1 / 200)) ∧
      0 < (mkSimulation 2 2 (1 / 10) (1 / 10) (1 / 200)).width ∧
      0 < (mkSimulation 2 2 (1 / 10) (1 / 10) (1 / 200)).height) ∧
    (mkSimulation 2 2 (1 / 10) (1 / 10) (1 / 200)).get_percentage_status SUSCEPTIBLE
      + (mkSimulation 2 2 (1 / 10) (1 / 10) (1 / 200)).get_percentage_status INFECTED
      + (mkSimulation 2 2 (1 / 10) (1 / 10) (1 / 200)).get_percentage_status RECOVERED
      + (mkSimulation 2 2 (1 / 10) (1 / 10) (1 / 200)).get_percentage_status DEAD
      = 100 :=
  ⟨⟨Reachable.init 2 2 (1 / 10) (1 / 10) (1 / 200) _ rfl, by decide, by decide⟩,
    percentage_status_sums_to_100 _
      (Reachable.init 2 2 (1 / 10) (1 / 10) (1 / 200) _ rfl) (by decide) (by decide)⟩

/-- Counterexample to C8 as stated: on a 1×2 grid, `infect_randomly 3`
(3 > 2 = grid size) with all three `randint` draws selecting cell `(0,0)`
leaves cell `(0,1)` susceptible — the grid is not fully infected. -/
theorem infect_randomly_not_full_counterexample :
    (mkSimulation 1 2 (1 / 10) (1 / 10) (1 / 200)).width
        * (mkSimulation 1 2 (1 / 10) (1 / 10) (1 / 200)).height < 3 ∧
    ((mkSimulation 1 2 (1 / 10) (1 / 10) (1 / 200)).infect_randomly 3
        fun _ => (0, 0)).state 0 1 ≠ INFECTED := by
  refine ⟨by decide, by decide⟩

/-- C8 (amended): `infect_randomly(count)` is total for every `count`
(no out-of-bounds access, no exception — each write is to a drawn in-range
coordinate); every selected cell ends `Infected` (a duplicate selection is a
no-op), and a never-selected cell keeps its status — so the grid is fully
infected exactly when the draws cover every cell, not for all draws. -/
theorem infect_randomly_selected_only (sim : Simulation) (num : ℕ)
    (draws : ℕ → ℕ × ℕ) (a b : ℕ) :
    ((∃ n, n < num ∧ draws n = (a, b)) →
        (sim.infect_randomly num draws).state a b = INFECTED) ∧
    ((∀ n, n < num → draws n ≠ (a, b)) →
        (sim.infect_randomly num draws).state a b = sim.state a b) := by
  rw [infect_randomly_state]
  constructor
  · rintro ⟨n, hn, he⟩
    rw [if_pos ⟨n, List.mem_range.2 hn, he⟩]
  · intro hnone
    rw [if_neg]
    rintro ⟨n, hn, he⟩
    exact hnone n (List.mem_range.1 hn) he

/-- Witness for C8 (amended): with all three draws on `(0,0)` of the 1×2
grid, cell `(0,0)` is infected and cell `(0,1)` is untouched. -/
theorem infect_randomly_selected_only_witness :
    ((mkSimulation 1 2 (1 / 10) (1 / 10) (1 / 200)).infect_randomly 3
        fun _ => (0, 0)).state 0 0 = INFECTED ∧
    ((mkSimulation 1 2 (1 / 10) (1 / 10) (1 / 200)).infect_randomly 3
        fun _ => (0, 0)).state 0 1
      = (mkSimulation 1 2 (1 / 10) (1 / 10) (1 / 200)).state 0 1 :=
  ⟨(infect_randomly_selected_only _ 3 (fun _ => (0, 0)) 0 0).1 ⟨0, by decide, rfl⟩,
    (infect_randomly_selected_only _ 3 (fun _ => (0, 0)) 0 1).2
      (fun _ _ => by decide)⟩

/-- Counterexample to C9 as stated: constructing with `width = 0 ≤ 0`
succeeds and returns a degenerate zero-cell grid — no configuration error
is raised. -/
theorem zero_width_construction_succeeds :
    ((0 : Int) ≤ 0) ∧
    simulation_init 0 5 (1 / 10) (1 / 10) (1 / 200)
      = Except.ok (mkSimulation 0 5 (1 / 10) (1 / 10) (1 / 200)) := by
  refine ⟨by decide, rfl⟩

/-- C9 (amended): construction fails at construction time only for strictly
negative `width` or `height` (the `np.zeros` allocation rejects negative
dimensions); `width = 0` or `height = 0` is accepted and yields a degenerate
zero-size grid. -/
theorem negative_dims_construction_fails (w h : Int) (rec inf dth : ℚ)
    (hneg : w < 0 ∨ h < 0) :
    simulation_init w h rec inf dth
      = Except.error "ValueError: negative dimensions are not allowed" := by
  rw [simulation_init, if_pos hneg]

/-- Witness for C9 (amended): `width = -1` is rejected. -/
theorem negative_dims_construction_fails_witness :
    ((-1 : Int) < 0 ∨ (4 : Int) < 0) ∧
    simulation_init (-1) 4 (1 / 10) (1 / 10) (1 / 200)
      = Except.error "ValueError: negative dimensions are not allowed" :=
  ⟨Or.inl (by decide),
    negative_dims_construction_fails (-1) 4 (1 / 10) (1 / 10) (1 / 200)
      (Or.inl (by decide))⟩

/-- C10: `infect_randomly` sets every selected cell to `Infected`
unconditionally, whatever the cell held before — including terminal
statuses — for every engine state. -/
theorem infect_randomly_overwrites_any_status (sim : Simulation) (num : ℕ)
    (draws : ℕ → ℕ × ℕ) (n : ℕ) (h : n < num) :
    (sim.infect_randomly num draws).state (draws n).1 (draws n).2 = INFECTED := by
  rw [infect_randomly_state]
  rw [if_pos ⟨n, List.mem_range.2 h, rfl⟩]

/-- Witness for C10: seeding resurrects the dead cell `(0,0)` of `simTerm`. -/
theorem infect_randomly_overwrites_any_status_witness :
    (simTerm.state 0 0 = DEAD ∧ 0 < 1) ∧
    (simTerm.infect_randomly 1 fun _ => (0, 0)).state 0 0 = INFECTED :=
  ⟨⟨by decide, by decide⟩,
    infect_randomly_overwrites_any_status simTerm 1 (fun _ => (0, 0)) 0 (by decide)⟩

/-- C1: `update()` computes every cell's new status from the pre-update
snapshot only — each in-grid cell's new status is the value of
`get_new_status` on the old grid — and on the 1×3 grid
`[Infected, Susceptible, Susceptible]` with `recovery_probability = 1` and
`infection_probability = 1`, one update yields
`[Recovered, Infected, Susceptible]` for every draw stream in `[0,1)`. -/
theorem update_uses_pre_update_snapshot :
    (∀ (sim : Simulation) (r : ℕ → ℚ) (i j : ℕ), i < sim.width → j < sim.height →
        ∃ p, (sim.update r).state i j = (sim.get_new_status sim.state i j r p).1) ∧
    (∀ r : ℕ → ℚ, (∀ k, 0 ≤ r k ∧ r k < 1) →
        (sim13.update r).state 0 0 = RECOVERED ∧
        (sim13.update r).state 0 1 = INFECTED ∧
        (sim13.update r).state 0 2 = SUSCEPTIBLE) := by
  constructor
  · exact fun sim r i j hi hj => update_state_spec sim r i j hi hj
  · intro r hr
    have g1 : sim13.get_new_status sim13.state 0 0 r 0 = (RECOVERED, 1) := by
      have h1 : sim13.state 0 0 = INFECTED := by decide
      have h2 : sim13.recovery_probability = 1 := by decide
      simp [Simulation.get_new_status, h1, h2, (hr 0).2]
    have g2 : sim13.get_new_status sim13.state 0 1 r 1 = (INFECTED, 2) := by
      have h1 : sim13.state 0 1 = SUSCEPTIBLE := by decide
      have h2 : sim13.infection_probability = 1 := by decide
      have h3 : sim13.num_infected_around sim13.state 0 1 = 1 := by decide
      simp [Simulation.get_new_status, h1, h2, h3, SUSCEPTIBLE, INFECTED, (hr 1).2]
    have g3 : sim13.get_new_status sim13.state 0 2 r 2 = (SUSCEPTIBLE, 3) := by
      have h1 : sim13.state 0 2 = SUSCEPTIBLE := by decide
      have h3 : sim13.num_infected_around sim13.state 0 2 = 0 := by decide
      have h4 : ¬(r 2 < 0) := not_lt.2 (hr 2).1
      simp [Simulation.get_new_status, h1, h3, h4, SUSCEPTIBLE, INFECTED]
    have hcells : gridCells sim13.width sim13.height
        = [((0 : ℕ), (0 : ℕ)), (0, 1), (0, 2)] := by decide
    refine ⟨?_, ?_, ?_⟩ <;>
      simp [Simulation.update, hcells, updStep, g1, g2, g3, Prod.ext_iff]

/-- Witness for C1: the 1×3 scenario evaluated on the all-zero draw
stream. -/
theorem update_uses_pre_update_snapshot_witness :
    (∀ _ : ℕ, (0 : ℚ) ≤ 0 ∧ (0 : ℚ) < 1) ∧
    ((sim13.update fun _ => (0 : ℚ)).state 0 0 = RECOVERED ∧
      (sim13.update fun _ => (0 : ℚ)).state 0 1 = INFECTED ∧
      (sim13.update fun _ => (0 : ℚ)).state 0 2 = SUSCEPTIBLE) :=
  ⟨fun _ => ⟨le_refl 0, by norm_num⟩,
    update_uses_pre_update_snapshot.2 (fun _ => (0 : ℚ))
      (fun _ => ⟨le_refl 0, by norm_num⟩)⟩

end SIR
